import Mathlib

/-!
Verification of the matching/scoring engine of the talenloft job/candidate
marketplace (src/app.py with the data model of src/schema.py).

The scorer `calculate_matching_score` (app.py lines 17-42) and the two inline
ranking blocks (app.py lines 150-157 and 243-250) are embedded shallowly:

* Python sets of `(skill_group, skill_level)` tuples become
  `Finset (String × SkillLevel)`;
* the decimal weight literals `0.4`, `0.3`, `0.2`, `0.05` and all score
  arithmetic are modelled exactly over `ℚ`;
* the fallible `int()` conversion inside the `try`/`except` block of the
  experience sub-score is modelled in `Except PyError`;
* Python's stable in-place `list.sort(key=lambda x: x[1], reverse=True)`
  is modelled by `List.mergeSort` (stable) with a non-strict descending
  comparison on the second component.
-/

/-- Enum `LocationType` of schema.py (values "Remote", "Hybrid", "On-site").
It is a plain `enum.Enum`, not a `str` mix-in. -/
inductive LocationType
  | REMOTE
  | HYBRID
  | ON_SITE
  deriving DecidableEq

/-- Enum `SkillLevel` of schema.py (values 1-4). -/
inductive SkillLevel
  | BEGINNER
  | INTERMEDIATE
  | ADVANCED
  | EXPERT
  deriving DecidableEq

/-- Enum `CareerPreference` of schema.py. -/
inductive CareerPreference
  | UPWARD_MOBILITY
  | LATERAL_MOVE
  | CAREER_CHANGE
  deriving DecidableEq

/-- Enum `Availability` of schema.py. -/
inductive Availability
  | IMMEDIATE
  | WITHIN_1_MONTH
  | WITHIN_3_MONTHS
  deriving DecidableEq

/-- A row of the `skills` table: descriptive `skill_type` metadata plus the
`(skill_group, skill_level)` identity used by the matcher. -/
structure Skill where
  skill_type : String
  skill_group : String
  skill_level : SkillLevel
  deriving DecidableEq

/-- The Python exception classes caught by the scorer's `except
(TypeError, ValueError)` clause; these are the only exceptions `int()` can
raise on a scalar argument. -/
inductive PyError
  | typeError
  | valueError
  deriving DecidableEq

/-- Value of an experience column (`required_experience` /
`total_experience`) as seen by the scorer: `none` models Python `None`,
`int n` models any value on which `int()` succeeds with result `n`
(Python ints themselves, numeric strings, floats), and `malformed e`
models a value on which `int()` raises exception `e`
(e.g. a non-numeric string raises `ValueError`, a list raises `TypeError`). -/
inductive ExpVal
  | none
  | int (n : ℤ)
  | malformed (e : PyError)
  deriving DecidableEq

/-- A row of the `jobs` table (schema.py lines 38-49), restricted to the
fields the scorer can see.  `title` and `created_at` are omitted: the scorer
never reads them. -/
structure Job where
  required_experience : ExpVal
  location_type : LocationType
  salary_min : ℤ
  salary_max : ℤ
  availability : Availability
  career_preference : CareerPreference
  skills : List Skill

/-- A row of the `candidates` table (schema.py lines 51-61), restricted to
the fields the scorer can see. -/
structure Candidate where
  total_experience : ExpVal
  preferred_location : LocationType
  expected_salary_min : ℤ
  expected_salary_max : ℤ
  career_preference : CareerPreference
  skills : List Skill

/-- The `(skill_group, skill_level)` tuple built for each skill in the set
comprehensions of app.py lines 19-20. -/
def skillKey (s : Skill) : String × SkillLevel :=
  (s.skill_group, s.skill_level)

/-- `job_skills = {(s.skill_group, s.skill_level) for s in job.skills}`
(app.py line 19). -/
def job_skills (j : Job) : Finset (String × SkillLevel) :=
  (j.skills.map skillKey).toFinset

/-- `candidate_skills = {(s.skill_group, s.skill_level) for s in
candidate.skills}` (app.py line 20). -/
def candidate_skills (c : Candidate) : Finset (String × SkillLevel) :=
  (c.skills.map skillKey).toFinset

/-- `{sg for sg, _ in job_skills}` (app.py line 22). -/
def job_skill_groups (j : Job) : Finset String :=
  (job_skills j).image Prod.fst

/-- `{sg for sg, _ in candidate_skills}` (app.py line 22). -/
def candidate_skill_groups (c : Candidate) : Finset String :=
  (candidate_skills c).image Prod.fst

/-- `full_matches = len(job_skills & candidate_skills)` (app.py line 21). -/
def full_matches (j : Job) (c : Candidate) : ℕ :=
  (job_skills j ∩ candidate_skills c).card

/-- `partial_matches = len({sg for sg, _ in job_skills} & {sg for sg, _ in
candidate_skills}) - full_matches` (app.py line 22); Python int subtraction,
so the value can be negative. -/
def partial_matches (j : Job) (c : Candidate) : ℤ :=
  ((job_skill_groups j ∩ candidate_skill_groups c).card : ℤ)
    - (full_matches j c : ℤ)

/-- The integer `full_matches * 10 + partial_matches * 5` inside the
parentheses of app.py line 23. -/
def skill_raw (j : Job) (c : Candidate) : ℤ :=
  (full_matches j c : ℤ) * 10 + partial_matches j c * 5

/-- `skill_score = (full_matches * 10 + partial_matches * 5) * 0.4`
(app.py line 23). -/
def skill_score (j : Job) (c : Candidate) : ℚ :=
  (skill_raw j c : ℚ) * 0.4

/-- The Python call `int(x)` on an experience value: succeeds on numeric
values, raises `TypeError` on `None` and the recorded exception on a
malformed value. -/
def pyInt : ExpVal → Except PyError ℤ
  | ExpVal.none => Except.error PyError.typeError
  | ExpVal.int n => Except.ok n
  | ExpVal.malformed e => Except.error e

/-- `int(x) if x is not None else 0` (app.py lines 27-28): `None` is
replaced by `0` before `int()` is ever called. -/
def expOperand : ExpVal → Except PyError ℤ
  | ExpVal.none => Except.ok 0
  | v => pyInt v

/-- The body of the `try` block of app.py lines 26-29: convert both
experience values, then compare.  An `Except.error` models an exception
escaping the `try` body. -/
def exp_score_exc (cte jre : ExpVal) : Except PyError ℚ := do
  let candidate_exp ← expOperand cte
  let job_exp ← expOperand jre
  return if candidate_exp ≥ job_exp then 10 * 0.3 else -5 * 0.3

/-- The experience sub-score with the `except (TypeError, ValueError)`
handler of app.py lines 30-31 applied: a raised error is replaced by the
penalty `-5 * 0.3`. -/
def exp_score (cte jre : ExpVal) : ℚ :=
  match exp_score_exc cte jre with
  | Except.ok s => s
  | Except.error _ => -5 * 0.3

/-- `career_score = 10 * 0.2 if job.career_preference ==
candidate.career_preference else -10 * 0.2` (app.py line 34). -/
def career_score (j : Job) (c : Candidate) : ℚ :=
  if j.career_preference = c.career_preference then 10 * 0.2 else -10 * 0.2

/-- A Python value appearing in the membership test of app.py line 37:
either the string literal `"Hybrid"` or a `LocationType` enum member. -/
inductive PyVal
  | str (s : String)
  | loc (lt : LocationType)
  deriving DecidableEq

/-- Python `==` between such values.  `LocationType` is a plain
`enum.Enum`, so a member equals only itself: comparing a `str` with a
member returns `NotImplemented` on both sides (`str.__eq__` rejects the
foreign type and `enum.Enum` inherits identity-based `object.__eq__`),
which Python resolves to `False`. -/
def pyEq : PyVal → PyVal → Bool
  | PyVal.str a, PyVal.str b => a == b
  | PyVal.loc a, PyVal.loc b => decide (a = b)
  | _, _ => false

/-- `location_score = 10 if job.location_type == candidate.preferred_location
else 5 if "Hybrid" in [job.location_type, candidate.preferred_location]
else 0` (app.py line 37).  The membership test compares the string
`"Hybrid"` with the two enum members via `pyEq`. -/
def location_score (j : Job) (c : Candidate) : ℚ :=
  if j.location_type = c.preferred_location then 10
  else if ([PyVal.loc j.location_type, PyVal.loc c.preferred_location].any
      (fun v => pyEq (PyVal.str "Hybrid") v)) then 5
  else 0

/-- `salary_overlap = (candidate.expected_salary_min <= job.salary_max) and
(candidate.expected_salary_max >= job.salary_min)` (app.py line 38). -/
def salary_overlap (j : Job) (c : Candidate) : Bool :=
  decide (c.expected_salary_min ≤ j.salary_max)
    && decide (c.expected_salary_max ≥ j.salary_min)

/-- `salary_score = 10 if salary_overlap else 5 if
(candidate.expected_salary_min <= job.salary_max + 20000) else 0`
(app.py line 39). -/
def salary_score (j : Job) (c : Candidate) : ℚ :=
  if salary_overlap j c then 10
  else if c.expected_salary_min ≤ j.salary_max + 20000 then 5
  else 0

/-- `location_salary_score = (location_score + salary_score) * 0.05`
(app.py line 40). -/
def location_salary_score (j : Job) (c : Candidate) : ℚ :=
  (location_score j c + salary_score j c) * 0.05

/-- `calculate_matching_score` (app.py lines 17-42): the sum of the four
weighted sub-scores. -/
def calculate_matching_score (j : Job) (c : Candidate) : ℚ :=
  skill_score j c + exp_score c.total_experience j.required_experience
    + career_score j c + location_salary_score j c

/-- `calculate_matching_score` with the exception behaviour made explicit:
the only fallible operations in the function body are the two `int()`
calls inside the `try` block (`exp_score_exc`); the `except` clause
replaces a raised `TypeError`/`ValueError` by the penalty, and every other
operation is total, so the whole body is a value in `Except PyError ℚ`
whose `error` case would model an exception escaping the scorer. -/
def calculate_matching_score_exc (j : Job) (c : Candidate) :
    Except PyError ℚ := do
  let exp_val ← match exp_score_exc c.total_experience j.required_experience with
    | Except.ok s => Except.ok s
    | Except.error _ => Except.ok (-5 * 0.3 : ℚ)
  return skill_score j c + exp_val + career_score j c + location_salary_score j c

/-- The comparison performed by `matches.sort(key=lambda x: x[1],
reverse=True)` (app.py lines 155 and 248): `a` may stay before `b`
whenever `a`'s score is at least `b`'s. -/
def le_desc {α : Type} (a b : α × ℚ) : Bool :=
  decide (b.2 ≤ a.2)

/-- The `matches` list built by the `for` loops of app.py lines 150-153 and
243-246: every entity paired with its score, in input order. -/
def scored {α : Type} (score : α → ℚ) (entities : List α) : List (α × ℚ) :=
  entities.map (fun e => (e, score e))

/-- The fully sorted `matches` list after `matches.sort(key=lambda x: x[1],
reverse=True)`.  Python's Timsort is stable and `reverse=True` preserves
stability, so it is modelled by the stable `List.mergeSort` with the
non-strict descending comparison `le_desc`. -/
def rankAll {α : Type} (score : α → ℚ) (entities : List α) : List (α × ℚ) :=
  (scored score entities).mergeSort le_desc

/-- Modelled from the spec: the Ranker contract `rank(subject, entities,
top_k)` of spec section 4.2.  The source inlines this operation twice
(app.py lines 150-157 and 243-250) with `top_k` fixed to its default `5`
(`matches[:5]`); the `top_k` parameter itself appears only in the spec. -/
def rank {α : Type} (score : α → ℚ) (entities : List α) (top_k : ℕ) :
    List (α × ℚ) :=
  (rankAll score entities).take top_k

/-- The literal code path of app.py lines 150-157 / 243-250: sort all
matches, keep the first five. -/
def rank_default {α : Type} (score : α → ℚ) (entities : List α) :
    List (α × ℚ) :=
  rank score entities 5

/-- The ranking loop and sort with exception propagation made explicit:
an exception raised while scoring one entity would abort the whole loop
(app.py lines 151-153 / 244-246). -/
def collect_matches_exc (j : Job) : List Candidate → Except PyError (List (Candidate × ℚ))
  | [] => Except.ok []
  | c :: rest => do
      let s ← calculate_matching_score_exc j c
      let tail ← collect_matches_exc j rest
      return (c, s) :: tail

/-- The ranker over the explicit-exception scorer. -/
def rank_exc (j : Job) (cs : List Candidate) (k : ℕ) :
    Except PyError (List (Candidate × ℚ)) := do
  let ms ← collect_matches_exc j cs
  return (ms.mergeSort le_desc).take k

/-- The ordering demanded by the specification of the Ranker (spec sections
4.2 and 8) on index-tagged matches: `a` comes before `b` when `a`'s score is
strictly greater, or the scores are equal and `a` occurred no later than `b`
in the input (ties preserve original relative order). -/
def specLE {α : Type} (a b : ℕ × (α × ℚ)) : Prop :=
  b.2.2 < a.2.2 ∨ (a.2.2 = b.2.2 ∧ a.1 ≤ b.1)

instance specLE_decidable {α : Type} : DecidableRel (@specLE α) := fun a b => by
  unfold specLE
  exact inferInstance

instance specLE_isTotal {α : Type} : IsTotal (ℕ × (α × ℚ)) specLE := by
  constructor
  intro a b
  unfold specLE
  rcases lt_trichotomy a.2.2 b.2.2 with h | h | h
  · exact Or.inr (Or.inl h)
  · rcases Nat.le_total a.1 b.1 with hn | hn
    · exact Or.inl (Or.inr ⟨h, hn⟩)
    · exact Or.inr (Or.inr ⟨h.symm, hn⟩)
  · exact Or.inl (Or.inl h)

instance specLE_isTrans {α : Type} : IsTrans (ℕ × (α × ℚ)) specLE := by
  constructor
  intro a b c hab hbc
  unfold specLE at *
  rcases hab with hab | ⟨hab, hab'⟩
  · rcases hbc with hbc | ⟨hbc, _⟩
    · exact Or.inl (hbc.trans hab)
    · exact Or.inl (by rw [← hbc]; exact hab)
  · rcases hbc with hbc | ⟨hbc, hbc'⟩
    · exact Or.inl (by rw [hab]; exact hbc)
    · exact Or.inr ⟨hab.trans hbc, hab'.trans hbc'⟩

/-- Modelled from the spec: the Ranker's result as spec sections 4.2 and 8
describe it word for word.  Pair every entity with its score, tag each pair
with its input position, sort by strictly-descending score with ties kept in
input order (`specLE`), drop the tags and return the first `top_k`. -/
def rankSpec {α : Type} (score : α → ℚ) (entities : List α) (top_k : ℕ) :
    List (α × ℚ) :=
  ((((scored score entities).enum).insertionSort specLE).map (fun p => p.2)).take top_k

/-- The skill shared by the end-to-end example of spec section 8. -/
def pythonAdvanced : Skill :=
  { skill_type := "Programming", skill_group := "Python",
    skill_level := SkillLevel.ADVANCED }

/-- Job of the end-to-end example (spec section 8, last bullet). -/
def jobC7 : Job :=
  { required_experience := ExpVal.int 3, location_type := LocationType.ON_SITE,
    salary_min := 80000, salary_max := 120000,
    availability := Availability.IMMEDIATE,
    career_preference := CareerPreference.UPWARD_MOBILITY,
    skills := [pythonAdvanced] }

/-- Candidate of the end-to-end example (spec section 8, last bullet). -/
def candC7 : Candidate :=
  { total_experience := ExpVal.int 5, preferred_location := LocationType.ON_SITE,
    expected_salary_min := 90000, expected_salary_max := 110000,
    career_preference := CareerPreference.UPWARD_MOBILITY,
    skills := [pythonAdvanced] }

/-- Hybrid-location job for the location example: salary range
80000-120000. -/
def jobC1 : Job :=
  { required_experience := ExpVal.int 0, location_type := LocationType.HYBRID,
    salary_min := 80000, salary_max := 120000,
    availability := Availability.IMMEDIATE,
    career_preference := CareerPreference.UPWARD_MOBILITY,
    skills := [pythonAdvanced] }

/-- On-site candidate for the location example: salary expectation
130000-140000, disjoint from the job's range but within 20000 of its
maximum. -/
def candC1 : Candidate :=
  { total_experience := ExpVal.int 0, preferred_location := LocationType.ON_SITE,
    expected_salary_min := 130000, expected_salary_max := 140000,
    career_preference := CareerPreference.UPWARD_MOBILITY,
    skills := [pythonAdvanced] }

/-- Job requiring (Python, EXPERT) for the partial-match example. -/
def jobC3 : Job :=
  { required_experience := ExpVal.int 0, location_type := LocationType.REMOTE,
    salary_min := 80000, salary_max := 120000,
    availability := Availability.IMMEDIATE,
    career_preference := CareerPreference.UPWARD_MOBILITY,
    skills := [{ skill_type := "Programming", skill_group := "Python",
                 skill_level := SkillLevel.EXPERT }] }

/-- Candidate holding (Python, BEGINNER) for the partial-match example. -/
def candC3 : Candidate :=
  { total_experience := ExpVal.int 0, preferred_location := LocationType.REMOTE,
    expected_salary_min := 80000, expected_salary_max := 120000,
    career_preference := CareerPreference.UPWARD_MOBILITY,
    skills := [{ skill_type := "Programming", skill_group := "Python",
                 skill_level := SkillLevel.BEGINNER }] }

/-- Same skill identity as `pythonAdvanced` but different descriptive
`skill_type` metadata. -/
def pythonAdvancedAlt : Skill :=
  { skill_type := "Technology", skill_group := "Python",
    skill_level := SkillLevel.ADVANCED }

/-- First job of the noninterference witness pair. -/
def jobC9a : Job :=
  { required_experience := ExpVal.int 2, location_type := LocationType.REMOTE,
    salary_min := 70000, salary_max := 100000,
    availability := Availability.IMMEDIATE,
    career_preference := CareerPreference.LATERAL_MOVE,
    skills := [pythonAdvanced] }

/-- Second job of the noninterference witness pair: differs from `jobC9a`
only in `availability` and in the `skill_type` metadata of its skill. -/
def jobC9b : Job :=
  { required_experience := ExpVal.int 2, location_type := LocationType.REMOTE,
    salary_min := 70000, salary_max := 100000,
    availability := Availability.WITHIN_3_MONTHS,
    career_preference := CareerPreference.LATERAL_MOVE,
    skills := [pythonAdvancedAlt] }

/-- First candidate of the noninterference witness pair. -/
def candC9a : Candidate :=
  { total_experience := ExpVal.int 4, preferred_location := LocationType.HYBRID,
    expected_salary_min := 80000, expected_salary_max := 95000,
    career_preference := CareerPreference.LATERAL_MOVE,
    skills := [pythonAdvanced] }

/-- Second candidate of the noninterference witness pair: differs from
`candC9a` only in the `skill_type` metadata of its skill. -/
def candC9b : Candidate :=
  { total_experience := ExpVal.int 4, preferred_location := LocationType.HYBRID,
    expected_salary_min := 80000, expected_salary_max := 95000,
    career_preference := CareerPreference.LATERAL_MOVE,
    skills := [pythonAdvancedAlt] }

/-! ## Helper lemmas -/

/-- Python `==` between the string "Hybrid" and any enum member is `False`. -/
theorem pyEq_str_loc (s : String) (lt : LocationType) :
    pyEq (PyVal.str s) (PyVal.loc lt) = false := rfl

/-- The scorer never lets an exception escape: the `except` clause around the
only fallible operations turns every error into the penalty branch. -/
theorem scorer_exc_ok (j : Job) (c : Candidate) :
    calculate_matching_score_exc j c
      = Except.ok (calculate_matching_score j c) := by
  unfold calculate_matching_score_exc calculate_matching_score exp_score
  cases exp_score_exc c.total_experience j.required_experience
  · rfl
  · rfl

/-- The scoring loop over a list of candidates never raises. -/
theorem collect_matches_ok (j : Job) :
    ∀ cs : List Candidate,
      collect_matches_exc j cs
        = Except.ok (scored (calculate_matching_score j) cs) := by
  intro cs
  induction cs with
  | nil => rfl
  | cons c t ih =>
    unfold collect_matches_exc
    rw [scorer_exc_ok, ih]
    rfl

/-! ## Claims -/

/-- C1: the claim says the location sub-component is 10 on equality, else 5
when either side is HYBRID, else 0, and that a HYBRID/ON_SITE pair with
disjoint salaries within 20000 of `job.salary_max` yields a combined
sub-score of 0.5.  The code disagrees: on app.py line 37 the membership test
`"Hybrid" in [job.location_type, candidate.preferred_location]` compares the
string `"Hybrid"` with `LocationType` enum members and is therefore always
`False`, so the 5-branch is dead.  The location component is 10 on equality
and otherwise 0, and the claimed example evaluates to `(0 + 5) * 0.05 =
0.25`, not 0.5. -/
theorem location_hybrid_branch_dead :
    (∀ (j : Job) (c : Candidate),
        location_score j c
          = if j.location_type = c.preferred_location then (10 : ℚ) else 0)
    ∧ location_score jobC1 candC1 = 0
    ∧ location_salary_score jobC1 candC1 = 0.25 := by
  have hne : LocationType.HYBRID ≠ LocationType.ON_SITE := by decide
  refine ⟨?_, ?_, ?_⟩
  · intro j c
    simp [location_score, pyEq_str_loc]
  · norm_num [location_score, jobC1, candC1, pyEq, hne]
  · norm_num [location_salary_score, location_score, salary_score,
      salary_overlap, jobC1, candC1, pyEq, hne]

/-- C2 (counterexample): the claim says a missing (`None`) experience value
forces the penalty −1.5, but the code maps `None` to `0` before comparing;
with `candidate.total_experience = 5` and `job.required_experience = None`
the experience sub-score is +3.0, not −1.5. -/
theorem exp_none_not_penalty :
    exp_score (ExpVal.int 5) ExpVal.none = 3
    ∧ exp_score (ExpVal.int 5) ExpVal.none ≠ -1.5 := by
  have h : exp_score (ExpVal.int 5) ExpVal.none
      = if (5 : ℤ) ≥ 0 then (10 * 0.3 : ℚ) else -5 * 0.3 := rfl
  constructor
  · rw [h]; norm_num
  · rw [h]; norm_num

/-- C2 (amended): if either experience value is non-numeric (a value on
which `int()` raises), the experience sub-score is the penalty −1.5 and no
exception escapes the scorer; a missing (`None`) value is instead treated as
0 years by the guard `if ... is not None else 0`. -/
theorem exp_score_error_handling (cte jre : ExpVal)
    (h : (∃ e, cte = ExpVal.malformed e) ∨ (∃ e, jre = ExpVal.malformed e)) :
    exp_score cte jre = -1.5
    ∧ (∀ v, exp_score ExpVal.none v = exp_score (ExpVal.int 0) v)
    ∧ (∀ v, exp_score v ExpVal.none = exp_score v (ExpVal.int 0))
    ∧ ∀ (j : Job) (c : Candidate),
        calculate_matching_score_exc j c
          = Except.ok (calculate_matching_score j c) := by
  refine ⟨?_, fun v => rfl, fun v => rfl, fun j c => scorer_exc_ok j c⟩
  rcases h with ⟨e, rfl⟩ | ⟨e, rfl⟩
  · have h1 : exp_score (ExpVal.malformed e) jre = (-5 * 0.3 : ℚ) := rfl
    rw [h1]; norm_num
  · cases cte with
    | none =>
      have h1 : exp_score ExpVal.none (ExpVal.malformed e) = (-5 * 0.3 : ℚ) := rfl
      rw [h1]; norm_num
    | int n =>
      have h1 : exp_score (ExpVal.int n) (ExpVal.malformed e) = (-5 * 0.3 : ℚ) := rfl
      rw [h1]; norm_num
    | malformed e2 =>
      have h1 : exp_score (ExpVal.malformed e2) (ExpVal.malformed e)
          = (-5 * 0.3 : ℚ) := rfl
      rw [h1]; norm_num

/-- Witness for `exp_score_error_handling` at a concrete malformed value. -/
theorem exp_score_error_handling_witness :
    exp_score (ExpVal.malformed PyError.valueError) (ExpVal.int 3) = -1.5 :=
  (exp_score_error_handling (ExpVal.malformed PyError.valueError) (ExpVal.int 3)
    (Or.inl ⟨PyError.valueError, rfl⟩)).1

/-- C6: with numeric experience values the experience sub-score is
`10 * 0.3 = 3.0` when `candidate.total_experience ≥ job.required_experience`
and `-5 * 0.3 = -1.5` otherwise. -/
theorem exp_score_numeric (cexp jexp : ℤ) :
    exp_score (ExpVal.int cexp) (ExpVal.int jexp)
      = if cexp ≥ jexp then 3 else -1.5 := by
  have h : exp_score (ExpVal.int cexp) (ExpVal.int jexp)
      = if cexp ≥ jexp then (10 * 0.3 : ℚ) else -5 * 0.3 := rfl
  rw [h]
  split_ifs <;> norm_num

/-- C7: the end-to-end example of spec section 8: the given ON_SITE /
UPWARD_MOBILITY pair sharing (Python, ADVANCED) scores skill 4.0,
experience 3.0, career 2.0, location-salary 1.0, total 10.0. -/
theorem end_to_end_example :
    skill_score jobC7 candC7 = 4
    ∧ exp_score candC7.total_experience jobC7.required_experience = 3
    ∧ career_score jobC7 candC7 = 2
    ∧ location_salary_score jobC7 candC7 = 1
    ∧ calculate_matching_score jobC7 candC7 = 10 := by
  have h1 : skill_score jobC7 candC7 = 4 := by
    have hr : skill_raw jobC7 candC7 = 10 := by decide
    rw [skill_score, hr]; norm_num
  have h2 : exp_score candC7.total_experience jobC7.required_experience = 3 := by
    have h : exp_score candC7.total_experience jobC7.required_experience
        = if (5 : ℤ) ≥ 3 then (10 * 0.3 : ℚ) else -5 * 0.3 := rfl
    rw [h]; norm_num
  have h3 : career_score jobC7 candC7 = 2 := by
    norm_num [career_score, jobC7, candC7]
  have h4 : location_salary_score jobC7 candC7 = 1 := by
    norm_num [location_salary_score, location_score, salary_score,
      salary_overlap, jobC7, candC7]
  refine ⟨h1, h2, h3, h4, ?_⟩
  simp only [calculate_matching_score, h1, h2, h3, h4]
  norm_num

/-- C10: the raw skill score `full_matches * 10 + partial_matches * 5`
algebraically equals `5 * (full_matches + |groups(J) ∩ groups(C)|)`, so it
is non-negative even when `partial_matches` is negative, and hence the skill
sub-score is always ≥ 0. -/
theorem skill_raw_identity_nonneg (j : Job) (c : Candidate) :
    skill_raw j c
        = 5 * ((full_matches j c : ℤ)
            + ((job_skill_groups j ∩ candidate_skill_groups c).card : ℤ))
    ∧ 0 ≤ skill_score j c := by
  have h : skill_raw j c
      = 5 * ((full_matches j c : ℤ)
          + ((job_skill_groups j ∩ candidate_skill_groups c).card : ℤ)) := by
    unfold skill_raw partial_matches
    ring
  refine ⟨h, ?_⟩
  have h0 : (0 : ℤ) ≤ skill_raw j c := by
    rw [h]
    positivity
  have hq : (0 : ℚ) ≤ (skill_raw j c : ℚ) := by exact_mod_cast h0
  have h04 : (0 : ℚ) ≤ 0.4 := by norm_num
  rw [skill_score]
  exact mul_nonneg hq h04

/-- C3: the skill sub-score is exactly `(full_matches * 10 + partial_matches
* 5) * 0.4` with `full_matches = |J ∩ C|` over (group, level) pairs and
`partial_matches = |groups(J) ∩ groups(C)| - full_matches`; sharing exactly
one (group, level) pair and nothing else gives 4.0, and sharing one group at
differing levels with no exact match gives 2.0. -/
theorem skill_score_formula (j : Job) (c : Candidate) :
    skill_score j c
        = (((job_skills j ∩ candidate_skills c).card : ℚ) * 10
            + (((job_skill_groups j ∩ candidate_skill_groups c).card : ℚ)
                - ((job_skills j ∩ candidate_skills c).card : ℚ)) * 5) * 0.4
    ∧ (∀ p : String × SkillLevel,
        job_skills j ∩ candidate_skills c = {p}
        → job_skill_groups j ∩ candidate_skill_groups c = {p.1}
        → skill_score j c = 4)
    ∧ (∀ g : String,
        job_skills j ∩ candidate_skills c = ∅
        → job_skill_groups j ∩ candidate_skill_groups c = {g}
        → skill_score j c = 2) := by
  refine ⟨?_, ?_, ?_⟩
  · simp only [skill_score, skill_raw, partial_matches, full_matches]
    push_cast
    ring
  · intro p h1 h2
    have hf : full_matches j c = 1 := by
      simp only [full_matches, h1, Finset.card_singleton]
    simp only [skill_score, skill_raw, partial_matches, hf, h2,
      Finset.card_singleton]
    norm_num
  · intro g h1 h2
    have hf : full_matches j c = 0 := by
      simp only [full_matches, h1, Finset.card_empty]
    simp only [skill_score, skill_raw, partial_matches, hf, h2,
      Finset.card_singleton]
    norm_num

/-- Witness for `skill_score_formula`: the (Python, EXPERT) job against the
(Python, BEGINNER) candidate has no exact match, one shared group, and skill
sub-score 2.0. -/
theorem skill_score_formula_witness :
    skill_score jobC3 candC3 = 2 :=
  (skill_score_formula jobC3 candC3).2.2 "Python" (by decide) (by decide)

/-- C5: the salary sub-component is 10 when the ranges overlap, else 5 when
`candidate.expected_salary_min ≤ job.salary_max + 20000`, else 0; the
combined location-salary sub-score is `(location + salary) * 0.05`. -/
theorem salary_component_correct (j : Job) (c : Candidate) :
    (c.expected_salary_min ≤ j.salary_max ∧ c.expected_salary_max ≥ j.salary_min
      → salary_score j c = 10)
    ∧ (¬(c.expected_salary_min ≤ j.salary_max ∧ c.expected_salary_max ≥ j.salary_min)
      → c.expected_salary_min ≤ j.salary_max + 20000 → salary_score j c = 5)
    ∧ (¬(c.expected_salary_min ≤ j.salary_max ∧ c.expected_salary_max ≥ j.salary_min)
      → ¬(c.expected_salary_min ≤ j.salary_max + 20000) → salary_score j c = 0)
    ∧ location_salary_score j c
        = (location_score j c + salary_score j c) * 0.05 := by
  refine ⟨?_, ?_, ?_, rfl⟩
  · rintro ⟨h1, h2⟩
    have ho : salary_overlap j c = true := by
      simp [salary_overlap, h1, h2]
    simp [salary_score, ho]
  · intro hno h20
    have ho : salary_overlap j c = false := by
      rcases not_and_or.mp hno with h | h <;> simp [salary_overlap, h]
    simp [salary_score, ho, h20]
  · intro hno h20
    have ho : salary_overlap j c = false := by
      rcases not_and_or.mp hno with h | h <;> simp [salary_overlap, h]
    simp [salary_score, ho, h20]

/-- Witness for `salary_component_correct`: the end-to-end example's ranges
90000-110000 and 80000-120000 overlap, giving salary component 10. -/
theorem salary_component_correct_witness :
    salary_score jobC7 candC7 = 10 :=
  (salary_component_correct jobC7 candC7).1 ⟨by decide, by decide⟩

/-- C9: the score is independent of the `skill_type` metadata of the skills
and of the job's `availability`: any two job/candidate pairs that agree on
every scored field and on the `(skill_group, skill_level)` projections of
their skill lists (but may differ in `skill_type` and `availability`)
receive the same score. -/
theorem score_ignores_metadata (j₁ j₂ : Job) (c₁ c₂ : Candidate)
    (hjs : j₁.skills.map skillKey = j₂.skills.map skillKey)
    (hcs : c₁.skills.map skillKey = c₂.skills.map skillKey)
    (hre : j₁.required_experience = j₂.required_experience)
    (hlt : j₁.location_type = j₂.location_type)
    (hsmin : j₁.salary_min = j₂.salary_min)
    (hsmax : j₁.salary_max = j₂.salary_max)
    (hjcp : j₁.career_preference = j₂.career_preference)
    (hte : c₁.total_experience = c₂.total_experience)
    (hpl : c₁.preferred_location = c₂.preferred_location)
    (hemin : c₁.expected_salary_min = c₂.expected_salary_min)
    (hemax : c₁.expected_salary_max = c₂.expected_salary_max)
    (hccp : c₁.career_preference = c₂.career_preference) :
    calculate_matching_score j₁ c₁ = calculate_matching_score j₂ c₂ := by
  simp only [calculate_matching_score, skill_score, skill_raw, full_matches,
    partial_matches, job_skill_groups, candidate_skill_groups, job_skills,
    candidate_skills, career_score, location_salary_score, location_score,
    salary_score, salary_overlap, hjs, hcs, hre, hlt, hsmin, hsmax, hjcp,
    hte, hpl, hemin, hemax, hccp]

/-- Witness for `score_ignores_metadata`: two jobs differing in
`availability` and in the `skill_type` of their skill, against two
candidates differing in the `skill_type` of their skill, score equally. -/
theorem score_ignores_metadata_witness :
    jobC9a.availability ≠ jobC9b.availability
    ∧ jobC9a.skills ≠ jobC9b.skills
    ∧ calculate_matching_score jobC9a candC9a
        = calculate_matching_score jobC9b candC9b :=
  ⟨by decide, by decide,
    score_ignores_metadata jobC9a jobC9b candC9a candC9b
      rfl rfl rfl rfl rfl rfl rfl rfl rfl rfl rfl rfl⟩

/-- C8: no exception propagates out of the scorer or the ranker: with the
exception behaviour of the only fallible operations (the `int()` calls)
made explicit in `Except`, both the scorer and the ranker always return
`Except.ok` of the value of their total counterparts, for every input. -/
theorem no_exceptions_propagate :
    (∀ (j : Job) (c : Candidate),
        calculate_matching_score_exc j c
          = Except.ok (calculate_matching_score j c))
    ∧ ∀ (j : Job) (cs : List Candidate) (k : ℕ),
        rank_exc j cs k
          = Except.ok (rank (calculate_matching_score j) cs k) := by
  refine ⟨scorer_exc_ok, ?_⟩
  intro j cs k
  unfold rank_exc rank rankAll
  rw [collect_matches_ok]
  rfl

/-- The descending score comparison is transitive. -/
theorem le_desc_trans {α : Type} (a b c : α × ℚ) :
    le_desc a b → le_desc b c → le_desc a c := by
  simp only [le_desc, decide_eq_true_eq]
  exact fun h1 h2 => h2.trans h1

/-- The descending score comparison is total. -/
theorem le_desc_total {α : Type} (a b : α × ℚ) :
    le_desc a b || le_desc b a := by
  simp only [le_desc, Bool.or_eq_true, decide_eq_true_eq]
  exact le_total b.2 a.2

/-- The spec ordering coincides with the index-tie-broken comparison that
states the stability of `mergeSort`. -/
theorem specLE_iff_enumLE {α : Type} (a b : ℕ × (α × ℚ)) :
    specLE a b ↔ List.enumLE le_desc a b = true := by
  unfold specLE List.enumLE le_desc
  rcases lt_trichotomy a.2.2 b.2.2 with h | h | h
  · have h1 : ¬ b.2.2 ≤ a.2.2 := not_le.mpr h
    have h2 : ¬ b.2.2 < a.2.2 := not_lt.mpr h.le
    have h3 : a.2.2 ≠ b.2.2 := ne_of_lt h
    simp [h1, h2, h3]
  · have h1 : b.2.2 ≤ a.2.2 := le_of_eq h.symm
    have h2 : a.2.2 ≤ b.2.2 := le_of_eq h
    have h3 : ¬ b.2.2 < a.2.2 := not_lt.mpr h2
    simp [h1, h2, h3, h]
  · have h1 : b.2.2 ≤ a.2.2 := h.le
    have h2 : ¬ a.2.2 ≤ b.2.2 := not_le.mpr h
    simp [h1, h2, h]

/-- On index-tagged lists coming from `List.enum` the spec ordering is
antisymmetric: mutual relatedness forces equal scores, hence equal indices,
hence (indices being unique in an enumeration) equal elements. -/
theorem specLE_antisymm_on_enum {α : Type} {l : List (α × ℚ)}
    {a b : ℕ × (α × ℚ)} (ha : a ∈ l.enum) (hb : b ∈ l.enum)
    (hab : specLE a b) (hba : specLE b a) : a = b := by
  have hs : a.2.2 = b.2.2 := by
    rcases hab with h | ⟨he, _⟩
    · rcases hba with h2 | ⟨he2, _⟩
      · exact absurd (h.trans h2) (lt_irrefl _)
      · exact he2.symm
    · exact he
  have hidx : a.1 = b.1 := by
    rcases hab with h | ⟨_, hle⟩
    · rw [hs] at h; exact absurd h (lt_irrefl _)
    · rcases hba with h2 | ⟨_, hle2⟩
      · rw [hs] at h2; exact absurd h2 (lt_irrefl _)
      · exact Nat.le_antisymm hle hle2
  rw [List.mem_enum_iff_getElem?] at ha hb
  rw [hidx] at ha
  exact Prod.ext hidx (Option.some_injective _ (ha.symm.trans hb))

/-- Two lists that are permutations of each other and both sorted for a
relation antisymmetric on their elements are equal. -/
theorem eq_of_sorted_of_perm_on {β : Type} {r : β → β → Prop} :
    ∀ {l₁ l₂ : List β}, List.Perm l₁ l₂ → l₁.Pairwise r → l₂.Pairwise r →
      (∀ a ∈ l₁, ∀ b ∈ l₁, r a b → r b a → a = b) → l₁ = l₂ := by
  intro l₁
  induction l₁ with
  | nil =>
    intro l₂ hp _ _ _
    exact hp.nil_eq
  | cons a t ih =>
    intro l₂ hp hs₁ hs₂ hanti
    have ha2 : a ∈ l₂ := hp.subset (List.mem_cons_self _ _)
    obtain ⟨u₂, v₂, rfl⟩ := List.append_of_mem ha2
    have hp' : List.Perm t (u₂ ++ v₂) := (List.perm_cons a).1 (hp.trans List.perm_middle)
    have hs₁' : t.Pairwise r := (List.pairwise_cons.1 hs₁).2
    have hs₂' : (u₂ ++ v₂).Pairwise r := hs₂.sublist (by simp)
    have hanti' : ∀ x ∈ t, ∀ y ∈ t, r x y → r y x → x = y := fun x hx y hy =>
      hanti x (List.mem_cons_of_mem _ hx) y (List.mem_cons_of_mem _ hy)
    have ht : t = u₂ ++ v₂ := ih hp' hs₁' hs₂' hanti'
    subst ht
    have hall : ∀ x ∈ u₂, x = a := by
      intro x hx
      have hxa : r x a :=
        (List.pairwise_append.1 hs₂).2.2 x hx a (List.mem_cons_self _ _)
      have hax : r a x :=
        (List.pairwise_cons.1 hs₁).1 x (List.mem_append_left _ hx)
      exact hanti x (List.mem_cons_of_mem _ (List.mem_append_left _ hx))
        a (List.mem_cons_self _ _) hxa hax
    have hu : u₂ = List.replicate u₂.length a := List.eq_replicate_of_mem hall
    rw [hu]
    rw [show a :: (List.replicate u₂.length a ++ v₂)
        = (a :: List.replicate u₂.length a) ++ v₂ from rfl]
    rw [← List.replicate_succ, List.replicate_succ', List.append_assoc]
    rfl

/-- Sorting the scored list with the stable descending `mergeSort` of the
code gives exactly the sequence the spec describes: sort by strictly
descending score with ties kept in input order. -/
theorem rankAll_eq_spec {α : Type} (score : α → ℚ) (es : List α) :
    rankAll score es
      = (((scored score es).enum).insertionSort specLE).map (fun p => p.2) := by
  have hkey : ((scored score es).enum).mergeSort (List.enumLE le_desc)
      = ((scored score es).enum).insertionSort specLE := by
    refine @eq_of_sorted_of_perm_on _ specLE _ _ ?_ ?_ ?_ ?_
    · exact (List.mergeSort_perm _ _).trans
        (List.perm_insertionSort specLE _).symm
    · have h0 := List.sorted_mergeSort
        (fun a b c => List.enumLE_trans le_desc_trans a b c)
        (fun a b => List.enumLE_total le_desc_total a b)
        ((scored score es).enum)
      exact h0.imp (fun hab => (specLE_iff_enumLE _ _).mpr hab)
    · exact List.sorted_insertionSort specLE _
    · intro x hx y hy hxy hyx
      exact specLE_antisymm_on_enum (List.mem_mergeSort.1 hx)
        (List.mem_mergeSort.1 hy) hxy hyx
  have hme : (((scored score es).enum).mergeSort (List.enumLE le_desc)).map
        (fun p => p.2)
      = (scored score es).mergeSort le_desc := List.mergeSort_enum
  unfold rankAll
  rw [← hme, hkey]

/-- C4: `rank` returns the entities paired with their scores, sorted
descending by score with ties preserving the original relative input order
(stable sort), truncated to the first `top_k` (`rank_default` is the
source's hardcoded `top_k = 5`); `rank` with `top_k = 0` returns the empty
sequence, and `rank` over the empty input returns the empty sequence. -/
theorem rank_matches_spec {α : Type} (score : α → ℚ) (es : List α) (k : ℕ) :
    rank score es k = rankSpec score es k
    ∧ rank_default score es = rankSpec score es 5
    ∧ rank score es 0 = []
    ∧ rank score ([] : List α) k = [] := by
  refine ⟨?_, ?_, ?_, ?_⟩
  · unfold rank rankSpec
    rw [rankAll_eq_spec]
  · unfold rank_default rank rankSpec
    rw [rankAll_eq_spec]
  · unfold rank
    exact List.take_zero _
  · simp [rank, rankAll, scored]
